import Mathlib

/-!
Verification of the badugi-ai pixel-art service core: palette/grid validation,
the remix change comparison, and the ASCII/SVG rendering transforms.

JSON numbers (JS doubles) are modelled as exact rationals `ℚ`.  Every
floating-point expression the code evaluates on its reachable input domain
(`(r+g+b)/765 * 9` for `r,g,b ≤ 255`, and `size*size*0.5` for `size ≤ 64`)
is exactly representable / correctly floored in double precision, so the
rational model agrees with the JS semantics on that domain.
-/

namespace Badugi

/-- A palette as parsed from JSON: a list of color strings. -/
abbrev Palette := List String

/-- A pixel grid as parsed from JSON: a list of rows of JS numbers. -/
abbrev Grid := List (List ℚ)

/-- `Number.isInteger p` for a JS number modelled as a rational. -/
def jsIsInteger (p : ℚ) : Bool := p.den == 1

/-- Membership in the character class `[0-9A-Fa-f]` of the palette regex. -/
def isHexDigitChar (c : Char) : Bool :=
  ('0' ≤ c && c ≤ '9') || ('A' ≤ c && c ≤ 'F') || ('a' ≤ c && c ≤ 'f')

/-- `/^#[0-9A-Fa-f]{6}$/.test c` — the anchored regex accepts exactly the
strings made of `#` followed by six hex digits. -/
def matchesHexColor (c : String) : Bool :=
  match c.data with
  | d :: rest => d == '#' && rest.length == 6 && rest.all isHexDigitChar
  | [] => false

/-- `validatePalette` from the source: an array of 1–256 entries, each
matching `/^#[0-9A-Fa-f]{6}$/`. -/
def validatePalette (palette : Palette) : Bool :=
  if palette.length < 1 || palette.length > 256 then false
  else palette.all matchesHexColor

/-- `validatePixels` from the source: exactly `size` rows, each of exactly
`size` entries, each entry an integer `p` with `0 ≤ p < paletteLength`.
The `size` argument is the JS number from the request body. -/
def validatePixels (pixels : Grid) (size : ℚ) (paletteLength : Nat) : Bool :=
  if (pixels.length : ℚ) != size then false
  else pixels.all fun row =>
    ((row.length : ℚ) == size) && row.all fun p =>
      jsIsInteger p && !decide (p < 0) && !decide (p ≥ (paletteLength : ℚ))

theorem isHexDigitChar_iff (c : Char) :
    isHexDigitChar c = true ↔
      ('0' ≤ c ∧ c ≤ '9') ∨ ('A' ≤ c ∧ c ≤ 'F') ∨ ('a' ≤ c ∧ c ≤ 'f') := by
  simp [isHexDigitChar, or_assoc]

theorem matchesHexColor_iff (s : String) :
    matchesHexColor s = true ↔
      ∃ d : List Char, s.data = '#' :: d ∧ d.length = 6 ∧
        ∀ c ∈ d, ('0' ≤ c ∧ c ≤ '9') ∨ ('A' ≤ c ∧ c ≤ 'F') ∨ ('a' ≤ c ∧ c ≤ 'f') := by
  unfold matchesHexColor
  cases h : s.data with
  | nil => simp
  | cons a rest =>
    show (a == '#' && rest.length == 6 && rest.all isHexDigitChar) = true ↔ _
    simp only [Bool.and_eq_true, beq_iff_eq, List.all_eq_true]
    constructor
    · rintro ⟨⟨rfl, hlen⟩, hall⟩
      exact ⟨rest, rfl, hlen, fun c hc => (isHexDigitChar_iff c).mp (hall c hc)⟩
    · rintro ⟨d, hd, hlen, hall⟩
      injection hd with h1 h2
      subst h1; subst h2
      exact ⟨⟨rfl, hlen⟩, fun c hc => (isHexDigitChar_iff c).mpr (hall c hc)⟩

/-- One pixel entry passing the integer/range test of `validatePixels` is
exactly a natural number below the palette length. -/
theorem validEntry_iff (len : Nat) (p : ℚ) :
    (jsIsInteger p && !decide (p < 0) && !decide (p ≥ (len : ℚ))) = true ↔
      ∃ k : Nat, p = (k : ℚ) ∧ k < len := by
  simp only [jsIsInteger, Bool.and_eq_true, Bool.not_eq_true', decide_eq_false_iff_not,
    beq_iff_eq, not_lt, ge_iff_le, not_le]
  constructor
  · rintro ⟨⟨hden, hnn⟩, hub⟩
    have hnum : (p.num : ℚ) = p := by
      conv_rhs => rw [← Rat.num_div_den p]
      rw [hden]
      simp
    have h0 : 0 ≤ p.num := Rat.num_nonneg.mpr hnn
    refine ⟨p.num.toNat, ?_, ?_⟩
    · rw [← hnum]
      exact_mod_cast (congrArg (Int.cast : ℤ → ℚ) (Int.toNat_of_nonneg h0)).symm
    · have h1 : (p.num : ℚ) < (len : ℚ) := hnum ▸ hub
      have h2 : p.num < (len : ℤ) := by exact_mod_cast h1
      omega
  · rintro ⟨k, rfl, hk⟩
    exact ⟨⟨by simp, by positivity⟩, by exact_mod_cast hk⟩

/-- Full characterization of `validatePalette`. -/
theorem validatePalette_iff (palette : Palette) :
    validatePalette palette = true ↔
      (1 ≤ palette.length ∧ palette.length ≤ 256 ∧
        ∀ s ∈ palette, ∃ d : List Char, s.data = '#' :: d ∧ d.length = 6 ∧
          ∀ c ∈ d, ('0' ≤ c ∧ c ≤ '9') ∨ ('A' ≤ c ∧ c ≤ 'F') ∨ ('a' ≤ c ∧ c ≤ 'f')) := by
  simp only [validatePalette]
  split
  · rename_i h
    simp only [Bool.or_eq_true, decide_eq_true_eq] at h
    refine ⟨fun hcon => absurd hcon (by simp), ?_⟩
    rintro ⟨h1, h2, -⟩
    exact absurd h (by omega)
  · rename_i h
    simp only [Bool.or_eq_true, decide_eq_true_eq, not_or, not_lt] at h
    obtain ⟨h1, h2⟩ := h
    rw [List.all_eq_true]
    constructor
    · intro hall
      exact ⟨by omega, by omega, fun s hs => (matchesHexColor_iff s).mp (hall s hs)⟩
    · rintro ⟨-, -, hall⟩
      exact fun s hs => (matchesHexColor_iff s).mpr (hall s hs)

set_option maxRecDepth 4000 in
/-- C3: `validatePalette` accepts exactly the palettes of 1–256 entries whose
every entry is `#` followed by six (case-insensitive) hex digits; the empty
palette, a 257-entry palette and a palette containing `"#GGGGGG"` are all
rejected. -/
theorem validatePalette_correct :
    (∀ palette : Palette,
      validatePalette palette = true ↔
        (1 ≤ palette.length ∧ palette.length ≤ 256 ∧
          ∀ s ∈ palette, ∃ d : List Char, s.data = '#' :: d ∧ d.length = 6 ∧
            ∀ c ∈ d, ('0' ≤ c ∧ c ≤ '9') ∨ ('A' ≤ c ∧ c ≤ 'F') ∨ ('a' ≤ c ∧ c ≤ 'f'))) ∧
    validatePalette [] = false ∧
    validatePalette (List.replicate 257 "#000000") = false ∧
    validatePalette ["#GGGGGG"] = false :=
  ⟨validatePalette_iff, by decide, by decide, by decide⟩

/-- Full characterization of `validatePixels` (for a natural `size`, which is
how every call site passes it). -/
theorem validatePixels_iff (pixels : Grid) (size : Nat) (paletteLength : Nat) :
    validatePixels pixels (size : ℚ) paletteLength = true ↔
      (pixels.length = size ∧ ∀ row ∈ pixels, row.length = size ∧
        ∀ p ∈ row, ∃ k : Nat, p = (k : ℚ) ∧ k < paletteLength) := by
  simp only [validatePixels]
  split
  · rename_i h
    rw [bne_iff_ne] at h
    refine ⟨fun hcon => absurd hcon (by simp), ?_⟩
    rintro ⟨h1, -⟩
    exact absurd (congrArg (Nat.cast : Nat → ℚ) h1) h
  · rename_i h
    rw [bne_iff_ne, not_ne_iff] at h
    have hlen2 : pixels.length = size := by exact_mod_cast h
    rw [List.all_eq_true]
    constructor
    · intro hall
      refine ⟨hlen2, fun row hrow => ?_⟩
      have hr := hall row hrow
      rw [Bool.and_eq_true] at hr
      obtain ⟨hr1, hr2⟩ := hr
      refine ⟨by exact_mod_cast beq_iff_eq.mp hr1, fun p hp => ?_⟩
      exact (validEntry_iff paletteLength p).mp (List.all_eq_true.mp hr2 p hp)
    · rintro ⟨-, hall⟩
      intro row hrow
      obtain ⟨hr1, hr2⟩ := hall row hrow
      rw [Bool.and_eq_true]
      refine ⟨beq_iff_eq.mpr (by exact_mod_cast hr1), List.all_eq_true.mpr fun p hp => ?_⟩
      exact (validEntry_iff paletteLength p).mpr (hr2 p hp)

/-- C4: `validatePixels` accepts exactly the grids with `size` rows of `size`
entries each, every entry being (the JS number of) a natural number strictly
below the palette length; any wrong shape, non-integer or out-of-range entry
fails the whole check. -/
theorem validatePixels_correct :
    ∀ (pixels : Grid) (size : Nat) (paletteLength : Nat),
      validatePixels pixels (size : ℚ) paletteLength = true ↔
        (pixels.length = size ∧ ∀ row ∈ pixels, row.length = size ∧
          ∀ p ∈ row, ∃ k : Nat, p = (k : ℚ) ∧ k < paletteLength) :=
  validatePixels_iff

/-! ### The ASCII transform (`GET /api/art/:id/ascii`) -/

/-- Value of one hex digit, as read by `parseInt(..., 16)`. -/
def hexDigitVal (c : Char) : Nat :=
  if '0' ≤ c ∧ c ≤ '9' then c.toNat - '0'.toNat
  else if 'A' ≤ c ∧ c ≤ 'F' then c.toNat - 'A'.toNat + 10
  else if 'a' ≤ c ∧ c ≤ 'f' then c.toNat - 'a'.toNat + 10
  else 0

/-- `parseInt(hex.slice(i, i+2), 16)`: the value of the two hex digits
starting at position `i` of the color string. -/
def hexPairAt (hex : String) (i : Nat) : Nat :=
  16 * hexDigitVal (hex.data.getD i '0') + hexDigitVal (hex.data.getD (i + 1) '0')

/-- Brightness of one palette color: `(r + g + b) / (3 * 255)` with the
channels decoded from `hex.slice(1,3)`, `hex.slice(3,5)`, `hex.slice(5,7)`. -/
def brightnessOf (hex : String) : ℚ :=
  ((hexPairAt hex 1 + hexPairAt hex 3 + hexPairAt hex 5 : ℕ) : ℚ) / (3 * 255)

/-- The density ramp `' .:-=+*#%@'.split('')`. -/
def asciiChars : List Char := " .:-=+*#%@".data

/-- `chars[Math.floor(brightness[p] * (chars.length - 1))]` for one pixel
value `p` (a validated pixel is a nonnegative integer, whose array index is
its numerator). -/
def asciiCharFor (chars : List Char) (brightness : List ℚ) (p : ℚ) : Char :=
  chars.getD (⌊brightness.getD p.num.toNat 0 * ((chars.length : ℚ) - 1)⌋).toNat ' '

/-- The row strings `pixels.map(row => row.map(...).join(''))`, with the
brightness of every palette entry precomputed as in the source. -/
def asciiLines (palette : Palette) (pixels : Grid) : List String :=
  pixels.map fun row =>
    String.mk (row.map fun p => asciiCharFor asciiChars (palette.map brightnessOf) p)

/-- The ASCII rendering: the row strings joined by `'\n'`. -/
def asciiArt (palette : Palette) (pixels : Grid) : String :=
  String.intercalate "\n" (asciiLines palette pixels)

/-- `palette[p]` — the color a validated pixel value resolves to in its own
artwork's palette. -/
def colorAt (palette : Palette) (p : ℚ) : String :=
  palette.getD p.num.toNat ""

theorem getD_map_of_lt {α β : Type} (f : α → β) (l : List α) (k : Nat) (d : β) (d' : α)
    (h : k < l.length) : (l.map f).getD k d = f (l.getD k d') := by
  have h1 : (l.map f)[k]? = some (f l[k]) := by
    rw [List.getElem?_map, List.getElem?_eq_getElem h]
    rfl
  have h2 : l[k]? = some l[k] := List.getElem?_eq_getElem h
  rw [List.getD_eq_getElem?_getD, h1, List.getD_eq_getElem?_getD, h2]
  rfl

theorem natCast_num_toNat (k : Nat) : ((k : ℚ).num.toNat) = k := by
  simp

theorem asciiChars_getD_ne_newline (i : Nat) : asciiChars.getD i ' ' ≠ '\n' := by
  rcases Nat.lt_or_ge i asciiChars.length with h | h
  · have hmem : asciiChars.getD i ' ' ∈ asciiChars := by
      rw [List.getD_eq_getElem?_getD, List.getElem?_eq_getElem h]
      exact List.getElem_mem h
    exact (by decide : ∀ c ∈ asciiChars, c ≠ '\n') _ hmem
  · rw [List.getD_eq_default _ _ h]
    decide

theorem asciiCharFor_ne_newline (brightness : List ℚ) (p : ℚ) :
    asciiCharFor asciiChars brightness p ≠ '\n' :=
  asciiChars_getD_ne_newline _

/-- C5: each pixel is emitted as the ramp character at index
`⌊brightness(color) * (rampLength - 1)⌋`, where the color is resolved
through the artwork's own palette and its brightness is `(r+g+b)/(3*255)`
from its hex digits; on the 2×2 checkerboard over `["#000000", "#FFFFFF"]`
the output is exactly `" @\n@ "`. -/
theorem ascii_correct :
    (∀ (palette : Palette) (pixels : Grid) (size : Nat),
      validatePalette palette = true →
      validatePixels pixels (size : ℚ) palette.length = true →
      asciiArt palette pixels = String.intercalate "\n" (pixels.map fun row =>
        String.mk (row.map fun p =>
          asciiChars.getD (⌊brightnessOf (colorAt palette p) *
            ((asciiChars.length : ℚ) - 1)⌋).toNat ' '))) ∧
    asciiArt ["#000000", "#FFFFFF"] [[0, 1], [1, 0]] = " @\n@ " := by
  constructor
  · intro palette pixels size hpal hpix
    obtain ⟨-, hrows⟩ := (validatePixels_iff pixels size palette.length).mp hpix
    unfold asciiArt asciiLines
    congr 1
    refine List.map_congr_left fun row hrow => ?_
    congr 1
    refine List.map_congr_left fun p hp => ?_
    obtain ⟨k, rfl, hk⟩ := (hrows row hrow).2 p hp
    unfold asciiCharFor colorAt
    rw [natCast_num_toNat, getD_map_of_lt brightnessOf palette k 0 "" hk]
  · have hb0 : brightnessOf "#000000" = 0 := by
      unfold brightnessOf
      rw [show hexPairAt "#000000" 1 = 0 from by decide,
        show hexPairAt "#000000" 3 = 0 from by decide,
        show hexPairAt "#000000" 5 = 0 from by decide]
      norm_num
    have hb1 : brightnessOf "#FFFFFF" = 1 := by
      unfold brightnessOf
      rw [show hexPairAt "#FFFFFF" 1 = 255 from by decide,
        show hexPairAt "#FFFFFF" 3 = 255 from by decide,
        show hexPairAt "#FFFFFF" 5 = 255 from by decide]
      norm_num
    have e0 : asciiCharFor asciiChars [brightnessOf "#000000", brightnessOf "#FFFFFF"] 0
        = ' ' := by
      unfold asciiCharFor
      rw [show ((0 : ℚ).num.toNat) = 0 from by decide]
      simp only [List.getD_cons_zero]
      rw [hb0, show (⌊(0 : ℚ) * ((asciiChars.length : ℚ) - 1)⌋) = 0 from by norm_num]
      decide
    have e1 : asciiCharFor asciiChars [brightnessOf "#000000", brightnessOf "#FFFFFF"] 1
        = '@' := by
      unfold asciiCharFor
      rw [show ((1 : ℚ).num.toNat) = 1 from by decide]
      simp only [List.getD_cons_succ, List.getD_cons_zero]
      rw [hb1, show asciiChars.length = 10 from by decide,
        show (⌊(1 : ℚ) * (((10 : ℕ) : ℚ) - 1)⌋) = 9 from by norm_num]
      decide
    unfold asciiArt asciiLines
    simp only [List.map_cons, List.map_nil]
    rw [e0, e1]
    decide

/-- C9: the ASCII transform is a pure function of the palette and grid, and
on a validated artwork its output is `size` newline-joined lines, each of
exactly `size` characters, none of which is itself a newline. -/
theorem ascii_deterministic_shape :
    (∀ (p₁ p₂ : Palette) (g₁ g₂ : Grid), p₁ = p₂ → g₁ = g₂ →
        asciiArt p₁ g₁ = asciiArt p₂ g₂) ∧
    (∀ (palette : Palette) (pixels : Grid) (size : Nat),
      validatePixels pixels (size : ℚ) palette.length = true →
        asciiArt palette pixels = String.intercalate "\n" (asciiLines palette pixels) ∧
        (asciiLines palette pixels).length = size ∧
        ∀ l ∈ asciiLines palette pixels, l.length = size ∧ '\n' ∉ l.data) := by
  refine ⟨fun p₁ p₂ g₁ g₂ h1 h2 => by rw [h1, h2], ?_⟩
  intro palette pixels size hpix
  obtain ⟨hlen, hrows⟩ := (validatePixels_iff pixels size palette.length).mp hpix
  refine ⟨rfl, ?_, ?_⟩
  · unfold asciiLines
    rw [List.length_map]
    exact hlen
  · intro l hl
    unfold asciiLines at hl
    rw [List.mem_map] at hl
    obtain ⟨row, hrow, rfl⟩ := hl
    constructor
    · have hmk : ∀ cs : List Char, (String.mk cs).length = cs.length := fun _ => rfl
      rw [hmk, List.length_map]
      exact (hrows row hrow).1
    · intro hmem
      have hdata : ∀ cs : List Char, (String.mk cs).data = cs := fun _ => rfl
      rw [hdata, List.mem_map] at hmem
      obtain ⟨p, -, hp⟩ := hmem
      exact asciiCharFor_ne_newline _ p hp

/-- Closed instance of C5's general clause, at the checkerboard artwork. -/
theorem ascii_correct_witness :
    validatePalette ["#000000", "#FFFFFF"] = true ∧
    validatePixels [[0, 1], [1, 0]] ((2 : Nat) : ℚ) (["#000000", "#FFFFFF"] : Palette).length
      = true ∧
    asciiArt ["#000000", "#FFFFFF"] [[0, 1], [1, 0]] =
      String.intercalate "\n" (([[0, 1], [1, 0]] : Grid).map fun row =>
        String.mk (row.map fun p =>
          asciiChars.getD (⌊brightnessOf (colorAt ["#000000", "#FFFFFF"] p) *
            ((asciiChars.length : ℚ) - 1)⌋).toNat ' ')) :=
  ⟨by decide, by decide,
    ascii_correct.1 ["#000000", "#FFFFFF"] [[0, 1], [1, 0]] 2 (by decide) (by decide)⟩

/-! ### The SVG transform (`GET /art/:id/image`) -/

/-- `pixels[y][x]` for the loop counters of the render/remix loops. -/
def cellAt (pixels : Grid) (y x : Nat) : ℚ :=
  (pixels.getD y []).getD x 0

/-- One `<rect .../>` of the SVG output. -/
structure SvgRect where
  x : Nat
  y : Nat
  w : Nat
  h : Nat
  fill : String
deriving DecidableEq

/-- `Math.max(1, Math.floor(512 / size))`. -/
def svgScale (size : Nat) : Nat := max 1 (512 / size)

/-- `size * scale`, the side of the emitted square document. -/
def svgCanvasSize (size : Nat) : Nat := size * svgScale size

/-- The rectangle the inner loop body emits for pixel `(x, y)`. -/
def rectAt (palette : Palette) (pixels : Grid) (size : Nat) (y x : Nat) : SvgRect :=
  { x := x * svgScale size, y := y * svgScale size, w := svgScale size, h := svgScale size,
    fill := colorAt palette (cellAt pixels y x) }

/-- The rectangles of the SVG body, in emission order: `y` from `0` to
`size - 1`, and for each `y`, `x` from `0` to `size - 1`. -/
def svgRects (palette : Palette) (pixels : Grid) (size : Nat) : List SvgRect :=
  (List.range size).flatMap fun y => (List.range size).map fun x => rectAt palette pixels size y x

/-- The point `(u, v)` lies inside rectangle `r` (half-open on both axes). -/
def rectContains (r : SvgRect) (u v : Nat) : Prop :=
  r.x ≤ u ∧ u < r.x + r.w ∧ r.y ≤ v ∧ v < r.y + r.h

theorem length_flatMap_range_map {α : Type} (m n : Nat) (g : Nat → Nat → α) :
    ((List.range m).flatMap fun j => (List.range n).map (g j)).length = m * n := by
  rw [List.length_flatMap]
  rw [show (List.length ∘ fun j => List.map (g j) (List.range n)) = Function.const Nat n from by
    funext j
    simp]
  rw [List.map_const, List.length_range, List.sum_replicate, smul_eq_mul]

theorem getElem?_flatMap_range_map {α : Type} (m n : Nat) (g : Nat → Nat → α) (y x : Nat)
    (hy : y < m) (hx : x < n) :
    ((List.range m).flatMap fun j => (List.range n).map (g j))[y * n + x]? = some (g y x) := by
  induction m with
  | zero => omega
  | succ m ih =>
    rw [List.range_succ, List.flatMap_append, List.getElem?_append]
    rcases Nat.lt_or_ge y m with h | h
    · have hlt : y * n + x < ((List.range m).flatMap fun j => (List.range n).map (g j)).length := by
        rw [length_flatMap_range_map]
        calc y * n + x < (y + 1) * n := by rw [add_mul, one_mul]; omega
        _ ≤ m * n := Nat.mul_le_mul_right n h
      rw [if_pos hlt]
      exact ih h
    · have hym : y = m := by omega
      subst hym
      have hge : ¬(y * n + x < ((List.range y).flatMap fun j => (List.range n).map (g j)).length) := by
        rw [length_flatMap_range_map]
        omega
      rw [if_neg hge, length_flatMap_range_map]
      have hx2 : y * n + x - y * n = x := by omega
      rw [hx2, show ([y] : List Nat).flatMap (fun j => (List.range n).map (g j))
        = (List.range n).map (g y) from by simp]
      rw [List.getElem?_map, List.getElem?_range hx]
      rfl

/-- C6: the SVG body contains `size × size` rectangles; the one emitted at
position `y*size + x` (rows top-to-bottom, columns left-to-right) sits at
`(x*scale, y*scale)` with side `scale` and is filled with the pixel's
resolved palette color; for positive `size` every canvas point lies in
exactly one rectangle; and for `size = 32` the scale is 16 and the canvas
side is 512. -/
theorem svg_correct :
    (∀ (palette : Palette) (pixels : Grid) (size : Nat),
      (svgRects palette pixels size).length = size * size) ∧
    (∀ (palette : Palette) (pixels : Grid) (size : Nat) (y x : Nat), y < size → x < size →
      (svgRects palette pixels size)[y * size + x]? =
        some { x := x * svgScale size, y := y * svgScale size, w := svgScale size,
               h := svgScale size, fill := colorAt palette (cellAt pixels y x) }) ∧
    (∀ (palette : Palette) (pixels : Grid) (size : Nat), 0 < size →
      ∀ u v : Nat, u < svgCanvasSize size → v < svgCanvasSize size →
        ∃! q : Nat × Nat, q.1 < size ∧ q.2 < size ∧
          rectContains (rectAt palette pixels size q.1 q.2) u v) ∧
    svgScale 32 = 16 ∧ svgCanvasSize 32 = 512 := by
  refine ⟨?_, ?_, ?_, by decide, by decide⟩
  · intro palette pixels size
    exact length_flatMap_range_map size size _
  · intro palette pixels size y x hy hx
    exact getElem?_flatMap_range_map size size _ y x hy hx
  · intro palette pixels size hsize u v hu hv
    have hscale : 0 < svgScale size := lt_of_lt_of_le Nat.one_pos (le_max_left 1 _)
    have hdiv : ∀ w : Nat, w / svgScale size * svgScale size ≤ w ∧
        w < w / svgScale size * svgScale size + svgScale size := by
      intro w
      refine ⟨Nat.div_mul_le_self w _, ?_⟩
      have h2 := (Nat.div_lt_iff_lt_mul hscale).mp (Nat.lt_succ_self (w / svgScale size))
      calc w < (w / svgScale size + 1) * svgScale size := h2
      _ = w / svgScale size * svgScale size + svgScale size := by ring
    have hu2 : u < size * svgScale size := hu
    have hv2 : v < size * svgScale size := hv
    refine ⟨(v / svgScale size, u / svgScale size),
      ⟨(Nat.div_lt_iff_lt_mul hscale).mpr hv2, (Nat.div_lt_iff_lt_mul hscale).mpr hu2,
        (hdiv u).1, (hdiv u).2, (hdiv v).1, (hdiv v).2⟩, ?_⟩
    rintro ⟨y, x⟩ ⟨hy, hx, hcx1, hcx2, hcy1, hcy2⟩
    have hxe : u / svgScale size = x := by
      refine Nat.div_eq_of_lt_le hcx1 ?_
      calc u < x * svgScale size + svgScale size := hcx2
      _ = (x + 1) * svgScale size := by ring
    have hye : v / svgScale size = y := by
      refine Nat.div_eq_of_lt_le hcy1 ?_
      calc v < y * svgScale size + svgScale size := hcy2
      _ = (y + 1) * svgScale size := by ring
    rw [hxe, hye]

/-- Closed instance of C6 at a 1×1 artwork and the canvas origin. -/
theorem svg_correct_witness :
    ((0 : Nat) < 1) ∧
    (svgRects ["#000000"] [[0]] 1)[0 * 1 + 0]? =
      some { x := 0 * svgScale 1, y := 0 * svgScale 1, w := svgScale 1, h := svgScale 1,
             fill := colorAt ["#000000"] (cellAt [[0]] 0 0) } ∧
    ((0 : Nat) < svgCanvasSize 1) ∧
    (∃! q : Nat × Nat, q.1 < 1 ∧ q.2 < 1 ∧ rectContains (rectAt ["#000000"] [[0]] 1 q.1 q.2) 0 0) :=
  ⟨by decide, svg_correct.2.1 ["#000000"] [[0]] 1 0 0 (by decide) (by decide), by decide,
    svg_correct.2.2.1 ["#000000"] [[0]] 1 (by decide) 0 0 (by decide) (by decide)⟩

/-! ### The remix comparison (`POST /api/art`, remix branch) -/

/-- `Math.floor((size * size) * 0.5)` — the remix change cap.  (`0.5` and all
involved products are exact in double precision on this domain.) -/
def maxChangesOf (size : Nat) : Nat := (⌊((size * size : Nat) : ℚ) * 0.5⌋).toNat

theorem maxChangesOf_eq (size : Nat) : maxChangesOf size = size * size / 2 := by
  unfold maxChangesOf
  have h : ((size * size : Nat) : ℚ) * 0.5 = ((size * size : Nat) : ℚ) / ((2 : Nat) : ℚ) := by
    rw [show (0.5 : ℚ) = 1 / 2 from by norm_num]
    push_cast
    ring
  rw [h, Rat.floor_natCast_div_natCast]
  omega

/-- The remix change-count loop: over every cell `(x, y)` of the `size×size`
grid, count the cells with
`originalPalette[originalPixels[y][x]] !== palette[pixels[y][x]]`. -/
def changedPixels (originalPalette : Palette) (originalPixels : Grid)
    (palette : Palette) (pixels : Grid) (size : Nat) : Nat :=
  (List.range size).foldl (fun acc y =>
    (List.range size).foldl (fun acc2 x =>
      if colorAt originalPalette (cellAt originalPixels y x) ≠ colorAt palette (cellAt pixels y x)
      then acc2 + 1 else acc2) acc) 0

theorem foldl_range_count (P : Nat → Prop) [DecidablePred P] (n : Nat) (a : Nat) :
    (List.range n).foldl (fun acc x => if P x then acc + 1 else acc) a
      = a + ((Finset.range n).filter P).card := by
  induction n generalizing a with
  | zero => simp
  | succ n ih =>
    rw [List.range_succ, List.foldl_append, ih a, List.foldl_cons, List.foldl_nil,
      Finset.range_succ, Finset.filter_insert]
    by_cases hP : P n
    · rw [if_pos hP, if_pos hP, Finset.card_insert_of_not_mem (by simp)]
      omega
    · rw [if_neg hP, if_neg hP]

/-- C1 (amended): a cell is counted as changed exactly when the color
*strings* resolved through the two palettes differ — `changedPixels` is the
number of cells of the `size×size` grid whose resolved colors are unequal
as strings (raw indices are never compared). -/
theorem changedPixels_eq_card (oP : Palette) (oG : Grid) (nP : Palette) (nG : Grid)
    (size : Nat) :
    changedPixels oP oG nP nG size =
      ((Finset.range size ×ˢ Finset.range size).filter fun q =>
        colorAt oP (cellAt oG q.1 q.2) ≠ colorAt nP (cellAt nG q.1 q.2)).card := by
  unfold changedPixels
  rw [Finset.card_filter, Finset.sum_product]
  have houter : ∀ (m : Nat) (a : Nat),
      (List.range m).foldl (fun acc y =>
        (List.range size).foldl (fun acc2 x =>
          if colorAt oP (cellAt oG y x) ≠ colorAt nP (cellAt nG y x) then acc2 + 1 else acc2)
          acc) a
      = a + ∑ y ∈ Finset.range m, ∑ x ∈ Finset.range size,
          if colorAt oP (cellAt oG y x) ≠ colorAt nP (cellAt nG y x) then 1 else 0 := by
    intro m
    induction m with
    | zero =>
      intro a
      simp
    | succ m ih =>
      intro a
      rw [List.range_succ, List.foldl_append, ih a, List.foldl_cons, List.foldl_nil,
        Finset.sum_range_succ, foldl_range_count, Finset.card_filter]
      omega
  rw [houter size 0, Nat.zero_add]

/-- The 24-bit RGB value a `#RRGGBB` color string denotes (the comparison key
the claim describes; written from the spec's words, not from the source). -/
def specRgbValue (hex : String) : Nat :=
  65536 * hexPairAt hex 1 + 256 * hexPairAt hex 3 + hexPairAt hex 5

/-- C1 (counterexample): a remix whose cell resolves to the *same* 24-bit RGB
color through both palettes, written with different hex-digit case, is still
counted as changed — the code compares resolved color strings, not 24-bit
values. -/
theorem changedPixels_rgb_counterexample :
    changedPixels ["#ffffff"] [[0]] ["#FFFFFF"] [[0]] 1 = 1 ∧
    specRgbValue (colorAt ["#ffffff"] (cellAt [[(0 : ℚ)]] 0 0))
      = specRgbValue (colorAt ["#FFFFFF"] (cellAt [[(0 : ℚ)]] 0 0)) ∧
    validatePalette ["#ffffff"] = true ∧
    validatePalette ["#FFFFFF"] = true ∧
    validatePixels [[(0 : ℚ)]] ((1 : Nat) : ℚ) 1 = true := by
  refine ⟨by decide, by decide, by decide, by decide, by decide⟩

/-! ### The persistent store and the route handlers -/

/-- A stored artwork row (the `art` table). -/
structure Artwork where
  id : String
  author : String
  title : Option String
  size : ℚ
  palette : Palette
  pixels : Grid
  created_at : String
  views : Nat
  remix_of : Option String
deriving DecidableEq

/-- `SELECT * FROM art WHERE id = $1`, first row (`id` is the primary key). -/
def lookupArt (store : List Artwork) (id : String) : Option Artwork :=
  store.find? fun a => a.id == id

/-- `UPDATE art SET views = views + 1 WHERE id = $1`. -/
def updateViews (store : List Artwork) (id : String) : List Artwork :=
  store.map fun a => if a.id == id then { a with views := a.views + 1 } else a

/-- An incoming `POST /api/art` body.  `author`/`title` are `none` when the
field is missing or not a string; `remix_of` is `none` when absent. -/
structure ArtRequest where
  author : Option String
  title : Option String
  size : ℚ
  palette : Palette
  pixels : Grid
  remix_of : Option String

/-- `!author || typeof author !== 'string' || author.length > 64`. -/
def authorInvalid : Option String → Bool
  | none => true
  | some s => s == "" || decide (s.length > 64)

/-- `title && (typeof title !== 'string' || title.length > 128)`. -/
def titleInvalid : Option String → Bool
  | none => false
  | some t => t != "" && decide (t.length > 128)

/-- `title || null` (likewise `remix_of || null`): an empty string is falsy
and is stored as null. -/
def orNull : Option String → Option String
  | none => none
  | some s => if s = "" then none else some s

/-- JS truthiness of an optional string field (`if (remix_of)`). -/
def strTruthy : Option String → Bool
  | none => false
  | some s => s != ""

/-- The JSON bodies `POST /api/art` answers with.  The numeric counts
interpolated into the change-limit message are elided. -/
inductive PostResponse where
  | badRequest (error : String)
  | created (message : String) (id : String) (remix_of : Option String)
deriving DecidableEq

/-- The row `INSERT INTO art (...) VALUES ($1,...,$7)` stores for a validated
request.  `created_at` defaults to the database clock, passed here as the
external value `createdAt`; `views` defaults to 0. -/
def insertedRow (newId createdAt : String) (req : ArtRequest) : Artwork :=
  { id := newId, author := req.author.getD "", title := orNull req.title, size := req.size,
    palette := req.palette, pixels := req.pixels, created_at := createdAt, views := 0,
    remix_of := orNull req.remix_of }

/-- The `POST /api/art` handler of the remix-enabled variant: structural
validation, then the remix-policy checks when a parent is declared, then the
insert.  `newId` (the uuid) and `createdAt` (the clock) are the handler's
external inputs.  Past the size guard the request's `size` is exactly 32, so
the remix loop bound and cap are written with the literal 32. -/
def postArt (newId createdAt : String) (req : ArtRequest) (store : List Artwork) :
    PostResponse × List Artwork :=
  if authorInvalid req.author then
    (.badRequest "Invalid author (string, max 64 chars)", store)
  else if titleInvalid req.title then
    (.badRequest "Invalid title (string, max 128 chars)", store)
  else if req.size ≠ (32 : ℚ) then
    (.badRequest "Size must be 32 (32x32 pixels)", store)
  else if !validatePalette req.palette then
    (.badRequest "Invalid palette. Must be array of 1-256 hex colors (#RRGGBB)", store)
  else if !validatePixels req.pixels req.size req.palette.length then
    (.badRequest "Invalid pixels. Must be 32x32 array of palette indices", store)
  else if strTruthy req.remix_of then
    match lookupArt store (req.remix_of.getD "") with
    | none => (.badRequest "Original art not found for remix", store)
    | some original =>
      let changed := changedPixels original.palette original.pixels req.palette req.pixels 32
      if changed > maxChangesOf 32 then
        (.badRequest "Too many pixels changed. Remixes can only modify up to 50%.", store)
      else if changed = 0 then
        (.badRequest "No pixels changed. Make some modifications to remix!", store)
      else
        (.created "Remix published! 🎨🔀" newId (orNull req.remix_of),
          store ++ [insertedRow newId createdAt req])
  else
    (.created "Art created! 🎨" newId (orNull req.remix_of),
      store ++ [insertedRow newId createdAt req])

/-- The art-creation handler with the remix branch removed (the shape of the
variant without remix support): structural validation, then the insert. -/
def postArtNoRemix (newId createdAt : String) (req : ArtRequest) (store : List Artwork) :
    PostResponse × List Artwork :=
  if authorInvalid req.author then
    (.badRequest "Invalid author (string, max 64 chars)", store)
  else if titleInvalid req.title then
    (.badRequest "Invalid title (string, max 128 chars)", store)
  else if req.size ≠ (32 : ℚ) then
    (.badRequest "Size must be 32 (32x32 pixels)", store)
  else if !validatePalette req.palette then
    (.badRequest "Invalid palette. Must be array of 1-256 hex colors (#RRGGBB)", store)
  else if !validatePixels req.pixels req.size req.palette.length then
    (.badRequest "Invalid pixels. Must be 32x32 array of palette indices", store)
  else
    (.created "Art created! 🎨" newId (orNull req.remix_of),
      store ++ [insertedRow newId createdAt req])

/-- The core fields of the JSON body `GET /api/art/:id` answers with (its
auxiliary remix-lineage fields, which are further reads and mutate nothing,
are elided). -/
structure ArtJson where
  id : String
  author : String
  title : Option String
  size : ℚ
  palette : Palette
  pixels : Grid
  created_at : String
  views : Nat
  remix_of : Option String
deriving DecidableEq

/-- The responses of `GET /api/art/:id`. -/
inductive GetResponse where
  | notFound
  | ok (art : ArtJson)
deriving DecidableEq

/-- `GET /api/art/:id`: fetch the row, 404 when absent; otherwise increment
the view counter and answer with the fetched fields and `views: row.views + 1`. -/
def getArt (store : List Artwork) (id : String) : GetResponse × List Artwork :=
  match lookupArt store id with
  | none => (.notFound, store)
  | some row =>
    (.ok { id := row.id, author := row.author, title := row.title, size := row.size,
           palette := row.palette, pixels := row.pixels, created_at := row.created_at,
           views := row.views + 1, remix_of := row.remix_of },
     updateViews store id)

theorem lookupArt_updateViews_self (store : List Artwork) (id : String) (a : Artwork)
    (h : lookupArt store id = some a) :
    lookupArt (updateViews store id) id = some { a with views := a.views + 1 } := by
  induction store with
  | nil => simp [lookupArt] at h
  | cons b rest ih =>
    by_cases hb : b.id = id
    · have h2 : b = a := by
        simpa [lookupArt, List.find?_cons, hb] using h
      subst h2
      simp [lookupArt, updateViews, List.map_cons, List.find?_cons, hb, -List.find?_map]
    · have h2 : lookupArt rest id = some a := by
        simpa [lookupArt, List.find?_cons, hb] using h
      simpa [lookupArt, updateViews, List.map_cons, List.find?_cons, hb,
        -List.find?_map] using ih h2

theorem lookupArt_updateViews_other (store : List Artwork) (id j : String) (hj : j ≠ id) :
    lookupArt (updateViews store id) j = lookupArt store j := by
  induction store with
  | nil => rfl
  | cons b rest ih =>
    by_cases hbj : b.id = j
    · have hbid : ¬b.id = id := by
        rw [hbj]
        exact hj
      simp [lookupArt, updateViews, List.map_cons, List.find?_cons, hbj, hbid, hj,
        -List.find?_map]
    · by_cases hbid : b.id = id
      · have hij : id ≠ j := fun e => hj e.symm
        simpa [lookupArt, updateViews, List.map_cons, List.find?_cons, hbj, hbid, hij,
          -List.find?_map] using ih
      · simpa [lookupArt, updateViews, List.map_cons, List.find?_cons, hbj, hbid,
          -List.find?_map] using ih

/-- C10: a successful single-artwork fetch answers with the stored fields and
`views = stored views + 1`, stores exactly that incremented count back for
that id with every other field intact, and leaves every other id's lookup
and the store's size unchanged. -/
theorem getArt_correct :
    ∀ (store : List Artwork) (id : String) (a : Artwork),
      lookupArt store id = some a →
        (getArt store id).1 = GetResponse.ok
          { id := a.id, author := a.author, title := a.title, size := a.size,
            palette := a.palette, pixels := a.pixels, created_at := a.created_at,
            views := a.views + 1, remix_of := a.remix_of } ∧
        lookupArt (getArt store id).2 id = some { a with views := a.views + 1 } ∧
        (∀ j, j ≠ id → lookupArt (getArt store id).2 j = lookupArt store j) ∧
        (getArt store id).2.length = store.length := by
  intro store id a h
  unfold getArt
  rw [h]
  refine ⟨rfl, lookupArt_updateViews_self store id a h,
    fun j hj => lookupArt_updateViews_other store id j hj, ?_⟩
  unfold updateViews
  rw [List.length_map]

/-- The artwork of C10's witness. -/
def wArt : Artwork :=
  { id := "a1", author := "ann", title := none, size := 1, palette := ["#112233"],
    pixels := [[0]], created_at := "t0", views := 7, remix_of := none }

/-- Closed instance of C10: fetching `wArt` bumps its views from 7 to 8. -/
theorem getArt_correct_witness :
    lookupArt [wArt] "a1" = some wArt ∧
    lookupArt (getArt [wArt] "a1").2 "a1" = some { wArt with views := wArt.views + 1 } :=
  ⟨by decide, (getArt_correct [wArt] "a1" wArt (by decide)).2.1⟩

theorem postArt_cases (newId createdAt : String) (req : ArtRequest) (store : List Artwork) :
    ((postArt newId createdAt req store).2 = store) ∨
    ((∃ msg ro, (postArt newId createdAt req store).1 = PostResponse.created msg newId ro) ∧
      (postArt newId createdAt req store).2 = store ++ [insertedRow newId createdAt req]) := by
  simp only [postArt]
  repeat' split
  all_goals first
    | exact Or.inl rfl
    | exact Or.inr ⟨⟨_, _, rfl⟩, rfl⟩

/-- C7: a `POST /api/art` submission that is answered with any rejection —
structural or remix-policy — leaves the store exactly as it was; nothing is
inserted and no stored artwork changes. -/
theorem postArt_rejected_no_mutation :
    ∀ (newId createdAt : String) (req : ArtRequest) (store : List Artwork) (err : String),
      (postArt newId createdAt req store).1 = PostResponse.badRequest err →
      (postArt newId createdAt req store).2 = store := by
  intro newId createdAt req store err h
  rcases postArt_cases newId createdAt req store with h2 | ⟨⟨msg, ro, hc⟩, -⟩
  · exact h2
  · rw [h] at hc
    exact PostResponse.noConfusion hc

/-- The invalid request (missing author) of C7's witness. -/
def wBadReq : ArtRequest :=
  { author := none, title := none, size := 32, palette := ["#000000"], pixels := [[0]],
    remix_of := none }

/-- Closed instance of C7: a rejected submission leaves the store empty. -/
theorem postArt_rejected_no_mutation_witness :
    (postArt "n1" "t1" wBadReq []).1
      = PostResponse.badRequest "Invalid author (string, max 64 chars)" ∧
    (postArt "n1" "t1" wBadReq []).2 = [] :=
  ⟨by decide, postArt_rejected_no_mutation "n1" "t1" wBadReq []
    "Invalid author (string, max 64 chars)" (by decide)⟩

/-- C8: the remix comparison runs exactly when the submission declares a
(truthy) remix parent: without one the handler behaves as the comparison-free
handler, and with one that is not in the store the submission is rejected
with the parent-not-found error — leaving the store untouched — no matter
what the grids contain. -/
theorem postArt_remix_gating :
    (∀ (newId createdAt : String) (req : ArtRequest) (store : List Artwork),
      strTruthy req.remix_of = false →
      postArt newId createdAt req store = postArtNoRemix newId createdAt req store) ∧
    (∀ (newId createdAt : String) (req : ArtRequest) (store : List Artwork) (parentId : String),
      req.remix_of = some parentId → parentId ≠ "" →
      authorInvalid req.author = false → titleInvalid req.title = false →
      req.size = 32 → validatePalette req.palette = true →
      validatePixels req.pixels req.size req.palette.length = true →
      lookupArt store parentId = none →
      postArt newId createdAt req store
        = (PostResponse.badRequest "Original art not found for remix", store)) := by
  constructor
  · intro newId createdAt req store h
    simp [postArt, postArtNoRemix, h]
  · intro newId createdAt req store parentId hro hne ha ht hs hp hx hlook
    rw [hs] at hx
    simp [postArt, strTruthy, ha, ht, hs, hp, hx, hro, hne, hlook]

/-- The structurally valid remix request with a dangling parent of C8's
witness. -/
def wRemixMissingReq : ArtRequest :=
  { author := some "bob", title := none, size := 32,
    palette := ["#000000", "#FFFFFF"],
    pixels := List.replicate 32 (List.replicate 32 (0 : ℚ)),
    remix_of := some "nope" }

/-- Closed instance of C8 for both clauses. -/
theorem postArt_remix_gating_witness :
    strTruthy wBadReq.remix_of = false ∧
    postArt "n1" "t1" wBadReq [] = postArtNoRemix "n1" "t1" wBadReq [] ∧
    lookupArt [] "nope" = none ∧
    postArt "n1" "t1" wRemixMissingReq []
      = (PostResponse.badRequest "Original art not found for remix", []) :=
  ⟨by decide, postArt_remix_gating.1 "n1" "t1" wBadReq [] (by decide),
    by decide,
    postArt_remix_gating.2 "n1" "t1" wRemixMissingReq [] "nope" (by decide) (by decide)
      (by decide) (by decide) (by decide) (by decide) (by decide) (by decide)⟩

/-- C2: for a remix whose parent exists and which passes structural
validation, the submission is rejected exactly when the changed-cell count
exceeds `maxChanges = ⌊size²·0.5⌋` or is zero — so exactly `maxChanges`
changes (with at least one) is accepted; for the handler's size 32 the cap
is 512. -/
theorem remix_policy_correct :
    ∀ (newId createdAt : String) (req : ArtRequest) (store : List Artwork)
      (parentId : String) (original : Artwork),
      authorInvalid req.author = false → titleInvalid req.title = false →
      req.size = 32 → validatePalette req.palette = true →
      validatePixels req.pixels req.size req.palette.length = true →
      req.remix_of = some parentId → parentId ≠ "" →
      lookupArt store parentId = some original →
      (((∃ err, (postArt newId createdAt req store).1 = PostResponse.badRequest err) ↔
        (changedPixels original.palette original.pixels req.palette req.pixels 32
            > maxChangesOf 32 ∨
         changedPixels original.palette original.pixels req.palette req.pixels 32 = 0)) ∧
       maxChangesOf 32 = 512) := by
  intro newId createdAt req store parentId original ha ht hs hp hx hro hne hlook
  rw [hs] at hx
  refine ⟨?_, by rw [maxChangesOf_eq]⟩
  set ch := changedPixels original.palette original.pixels req.palette req.pixels 32 with hch
  by_cases h1 : ch > maxChangesOf 32
  · constructor
    · rintro -
      exact Or.inl h1
    · rintro -
      refine ⟨"Too many pixels changed. Remixes can only modify up to 50%.", ?_⟩
      simp [postArt, strTruthy, ha, ht, hs, hp, hx, hro, hne, hlook, ← hch, h1]
  · by_cases h2 : ch = 0
    · constructor
      · rintro -
        exact Or.inr h2
      · rintro -
        refine ⟨"No pixels changed. Make some modifications to remix!", ?_⟩
        simp [postArt, strTruthy, ha, ht, hs, hp, hx, hro, hne, hlook, ← hch, h1, h2]
    · constructor
      · rintro ⟨err, hc⟩
        exfalso
        rw [show (postArt newId createdAt req store).1
            = PostResponse.created "Remix published! 🎨🔀" newId (orNull req.remix_of) from by
          simp [postArt, strTruthy, ha, ht, hs, hp, hx, hro, hne, hlook, ← hch, h1, h2]] at hc
        exact PostResponse.noConfusion hc
      · rintro (hcon | hcon)
        · exact absurd hcon h1
        · exact absurd hcon h2

/-- The parent artwork of C2's witness: an all-black 32×32 board. -/
def wOrig : Artwork :=
  { id := "p1", author := "ann", title := none, size := 32,
    palette := ["#000000", "#FFFFFF"],
    pixels := List.replicate 32 (List.replicate 32 (0 : ℚ)),
    created_at := "t0", views := 0, remix_of := none }

/-- C2's witness request: flips the top 16 rows, i.e. exactly 512 =
`maxChanges` cells. -/
def wBoundaryReq : ArtRequest :=
  { author := some "bob", title := none, size := 32,
    palette := ["#000000", "#FFFFFF"],
    pixels := List.replicate 16 (List.replicate 32 (1 : ℚ))
      ++ List.replicate 16 (List.replicate 32 (0 : ℚ)),
    remix_of := some "p1" }

/-- Closed instance of C2 at the exact 50% boundary. -/
theorem remix_policy_correct_witness :
    authorInvalid wBoundaryReq.author = false ∧
    validatePalette wBoundaryReq.palette = true ∧
    validatePixels wBoundaryReq.pixels wBoundaryReq.size wBoundaryReq.palette.length = true ∧
    lookupArt [wOrig] "p1" = some wOrig ∧
    (((∃ err, (postArt "n1" "t1" wBoundaryReq [wOrig]).1 = PostResponse.badRequest err) ↔
      (changedPixels wOrig.palette wOrig.pixels wBoundaryReq.palette wBoundaryReq.pixels 32
          > maxChangesOf 32 ∨
       changedPixels wOrig.palette wOrig.pixels wBoundaryReq.palette wBoundaryReq.pixels 32
          = 0)) ∧
      maxChangesOf 32 = 512) :=
  ⟨by decide, by decide, by decide, by decide,
    remix_policy_correct "n1" "t1" wBoundaryReq [wOrig] "p1" wOrig (by decide) (by decide)
      (by decide) (by decide) (by decide) (by decide) (by decide) (by decide)⟩

/-- Closed instance of C9 at the checkerboard artwork. -/
theorem ascii_deterministic_shape_witness :
    validatePixels [[0, 1], [1, 0]] ((2 : Nat) : ℚ)
      (["#000000", "#FFFFFF"] : Palette).length = true ∧
    (asciiLines ["#000000", "#FFFFFF"] [[0, 1], [1, 0]]).length = 2 :=
  ⟨by decide,
    ((ascii_deterministic_shape.2 ["#000000", "#FFFFFF"] [[0, 1], [1, 0]] 2 (by decide)).2).1⟩

end Badugi
